import Mathlib

/-!
Verification of the YOLO synthetic dataset generator.

Shallow embedding of the repository's core modules:
  * coordinate transform (`utils/yoloUtils`): `convertGeminiBoxToYolo`,
    `formatYoloLine`, `getGeminiAspectRatio`, `resizeImage`;
  * dataset pipeline orchestrator (`App.tsx`): `generateDataset`,
    `handleDownloadZip`, `sample`.

JavaScript numbers are modelled as rationals (`ℚ`); effectful browser /
network calls are modelled by explicit outcome parameters (an `Env`
oracle supplying, per item, the result of each external call and each
random draw).
-/

/-- Raw detection box from the vision service: `{ymin, xmin, ymax, xmax}`
(`types.ts`, `Box2D`). -/
structure Box2D where
  ymin : ℚ
  xmin : ℚ
  ymax : ℚ
  xmax : ℚ
deriving DecidableEq, Repr

/-- Normalized YOLO box: `{x_center, y_center, width, height}`
(`types.ts`, `BoundingBox`). -/
structure BoundingBox where
  x_center : ℚ
  y_center : ℚ
  width : ℚ
  height : ℚ
deriving DecidableEq, Repr

/-- Embedding of `convertGeminiBoxToYolo` (`utils/yoloUtils`):
scale detection on `ymax`, division of all four fields by the scale,
center/size computation, and independent clamping of each output field
to `[0, 1]`. -/
def convertGeminiBoxToYolo (box : Box2D) (imgWidth imgHeight : ℚ) : BoundingBox :=
  -- const scale = box.ymax > 1 ? 1000 : 1;
  let scale : ℚ := if box.ymax > 1 then 1000 else 1
  let ymin := box.ymin / scale
  let xmin := box.xmin / scale
  let ymax := box.ymax / scale
  let xmax := box.xmax / scale
  let boxWidth := xmax - xmin
  let boxHeight := ymax - ymin
  let xCenter := xmin + boxWidth / 2
  let yCenter := ymin + boxHeight / 2
  -- Clamp values between 0 and 1 just in case
  { x_center := max 0 (min 1 xCenter)
    y_center := max 0 (min 1 yCenter)
    width := max 0 (min 1 boxWidth)
    height := max 0 (min 1 boxHeight) }

/-- Spec-side definition (from the spec's words, for the refinement claim
C1): given already-scaled fields, compute `width = xmax - xmin`,
`height = ymax - ymin`, `x_center = xmin + width/2`,
`y_center = ymin + height/2`, each output clamped to `[0,1]`. -/
def normalizedBoxSpec (ymin xmin ymax xmax : ℚ) : BoundingBox :=
  let width := xmax - xmin
  let height := ymax - ymin
  let x_center := xmin + width / 2
  let y_center := ymin + height / 2
  { x_center := max 0 (min 1 x_center)
    y_center := max 0 (min 1 y_center)
    width := max 0 (min 1 width)
    height := max 0 (min 1 height) }

/-! ## formatYoloLine (`utils/yoloUtils`) -/

/-- The character for a single decimal digit. -/
def digitChar (n : ℕ) : Char :=
  ['0', '1', '2', '3', '4', '5', '6', '7', '8', '9'].getD (n % 10) '0'

/-- The exactly-`k`-digit big-endian decimal rendering of `m`
(leading zeros kept), as used by `toFixed` for the fractional part. -/
def digitsBE : ℕ → ℕ → List Char
  | 0, _ => []
  | k + 1, m => digitsBE k (m / 10) ++ [digitChar (m % 10)]

/-- Model of JavaScript `Number.prototype.toFixed(6)` on a non-negative
value: round `q·10^6` half-up to an integer `n`, then print
`n / 10^6` and the six fractional digits of `n % 10^6`. -/
def toFixed6Nonneg (q : ℚ) : String :=
  let n : ℕ := (⌊q * 1000000 + 1 / 2⌋).toNat
  toString (n / 1000000) ++ "." ++ String.mk (digitsBE 6 (n % 1000000))

/-- Model of `x.toFixed(6)`: negative values print a sign then the
magnitude, per the ECMAScript algorithm. -/
def toFixed6 (q : ℚ) : String :=
  if q < 0 then "-" ++ toFixed6Nonneg (-q) else toFixed6Nonneg q

/-- Embedding of `formatYoloLine` (`utils/yoloUtils`): the template
literal `` `${classId} ${x.toFixed(6)} ${y.toFixed(6)} ${w.toFixed(6)} ${h.toFixed(6)}` ``. -/
def formatYoloLine (classId : ℕ) (bbox : BoundingBox) : String :=
  toString classId ++ " " ++ toFixed6 bbox.x_center ++ " " ++ toFixed6 bbox.y_center
    ++ " " ++ toFixed6 bbox.width ++ " " ++ toFixed6 bbox.height

/-! ## getGeminiAspectRatio (`utils/yoloUtils`) -/

/-- The supported ratio keys, in the source's enumeration order. -/
def ratioKey : Fin 5 → String
  | ⟨0, _⟩ => "1:1"
  | ⟨1, _⟩ => "3:4"
  | ⟨2, _⟩ => "4:3"
  | ⟨3, _⟩ => "9:16"
  | ⟨4, _⟩ => "16:9"

/-- The reference values of the supported ratios
(`1.0, 0.75, 1.333, 0.5625, 1.777`), in the source's enumeration order. -/
def ratioVal : Fin 5 → ℚ
  | ⟨0, _⟩ => 1
  | ⟨1, _⟩ => 3 / 4
  | ⟨2, _⟩ => 1333 / 1000
  | ⟨3, _⟩ => 9 / 16
  | ⟨4, _⟩ => 1777 / 1000

/-- Embedding of `getGeminiAspectRatio` (`utils/yoloUtils`): `reduce` over
the literal ratio list keeps `curr` exactly when it is strictly closer to
the target ratio, so the earlier entry wins ties; `reduce` on the literal
list is the fold over its tail with its head as initial accumulator. -/
def getGeminiAspectRatio (width height : ℚ) : String :=
  let targetRatio := width / height
  (List.foldl
    (fun prev curr =>
      if |curr.2 - targetRatio| < |prev.2 - targetRatio| then curr else prev)
    (("1:1", 1) : String × ℚ)
    [("3:4", 3 / 4), ("4:3", 1333 / 1000), ("9:16", 9 / 16), ("16:9", 1777 / 1000)]).1

/-! ## resizeImage (`utils/yoloUtils`) -/

/-- Observable outcome of a JavaScript `Promise`: it either resolves with
a value or never settles (no `reject` path exists in `resizeImage`). -/
inductive PromiseOutcome where
  | resolved (value : String)
  | neverSettles
deriving DecidableEq, Repr

/-- Embedding of `resizeImage` (`utils/yoloUtils`). The browser events are
made explicit: `decodeOk` is whether the image decodes (whether `onload`
ever fires — no `onerror` handler is installed), `ctxOk` is whether
`canvas.getContext('2d')` returns a context, and `reencoded` is the
`canvas.toDataURL('image/jpeg', 0.9)` payload produced by the redraw. -/
def resizeImage (decodeOk ctxOk : Bool) (reencoded base64Str : String)
    (targetWidth targetHeight : ℚ) : PromiseOutcome :=
  if decodeOk then
    if ctxOk then
      .resolved reencoded
    else
      .resolved base64Str -- Fallback
  else
    .neverSettles

/-! ## Dataset pipeline orchestrator (`App.tsx`) -/

/-- `Object.values(LightingCondition)` (`types.ts`). -/
def lightingConditionValues : List String :=
  ["Sunny, harsh shadows", "Overcast, soft lighting", "Sunset, golden hour",
    "Night, artificial street lighting"]

/-- `Object.values(WeatherCondition)` (`types.ts`). -/
def weatherConditionValues : List String :=
  ["Clear, high visibility", "Foggy, heavy smog, atmospheric haze, low visibility",
    "Dusty, sandstorm, particulate matter in air, yellow tint",
    "Rainy, wet surfaces, puddles, falling droplets", "Cloudy, overcast sky"]

/-- `Object.values(BackgroundType)` (`types.ts`). -/
def backgroundTypeValues : List String :=
  ["Urban street, asphalt",
    "Construction site, cranes, raw materials, dirt, unfinished structures",
    "Green grass field", "Dirt ground, dry earth", "Concrete pavement",
    "Snowy ground", "Sandy desert"]

/-- `ALTITUDE_OPTIONS` (`types.ts`). -/
def altitudeOptions : List String :=
  ["Low (10m)", "Medium (30m)", "High (50m)", "Very High (100m)"]

/-- `ANGLE_OPTIONS` (`types.ts`). -/
def angleOptions : List String :=
  ["Top-down (90°)", "Steep (75°)", "High Angle (60°)", "Standard (45°)",
    "Low Angle (30°)", "Grazing (15°)"]

/-- `GenerationConfig` (`types.ts`). -/
structure GenerationConfig where
  count : ℕ
  width : ℚ
  height : ℚ
  lighting : String
  background : String
  altitude : String
  angle : String
  weather : String

/-- Item lifecycle status (`types.ts`, `GeneratedData.status`). -/
inductive Status where
  | pending
  | generating
  | detecting
  | completed
  | failed
deriving DecidableEq, Repr

/-- `GeneratedData.metadata` (`types.ts`). -/
structure Metadata where
  lighting : String
  background : String
  altitude : String
  angle : String
  weather : String
deriving DecidableEq, Repr

/-- `GeneratedData` (`types.ts`). -/
structure GeneratedData where
  id : String
  imageUrl : String
  bbox : Option BoundingBox
  status : Status
  error : Option String
  metadata : Metadata
deriving DecidableEq, Repr

/-- Embedding of `sample` (`App.tsx`):
`arr[Math.floor(Math.random() * arr.length)]`. The random draw is an
arbitrary natural `r`; `Math.floor(Math.random() * arr.length)` ranges
over exactly the indices `0 .. arr.length - 1`, modelled as
`r % arr.length`. -/
def sample (arr : List String) (r : ℕ) : String :=
  arr.getD (r % arr.length) ""

/-- Per-item outcomes of the external calls and browser events, supplied
by the environment: the synthesis call's result, the resize events, and
the detection call's result. -/
structure ItemEffects where
  synth : Except String String
  decodeOk : Bool
  ctxOk : Bool
  reencoded : String
  detect : Except String Box2D

/-- The oracle for all effects of a run: per-item random draws
(`Math.random`), clock reads (`Date.now`) and external-call outcomes. -/
structure Env where
  randLighting : ℕ → ℕ
  randBackground : ℕ → ℕ
  randAltitude : ℕ → ℕ
  randWeather : ℕ → ℕ
  randAngle : ℕ → ℕ
  now : ℕ → ℕ
  effects : ℕ → ItemEffects

/-- The per-item resolution of the "Random" axes (`App.tsx`,
`generateDataset` loop body): each "Random" axis is sampled from its
enumeration, and the angle is always sampled from `selectedAngles`. -/
def resolveItemMetadata (config : GenerationConfig) (selectedAngles : List String)
    (env : Env) (i : ℕ) : Metadata :=
  { lighting := if config.lighting = "Random"
      then sample lightingConditionValues (env.randLighting i) else config.lighting
    background := if config.background = "Random"
      then sample backgroundTypeValues (env.randBackground i) else config.background
    altitude := if config.altitude = "Random"
      then sample altitudeOptions (env.randAltitude i) else config.altitude
    angle := sample selectedAngles (env.randAngle i)
    weather := if config.weather = "Random"
      then sample weatherConditionValues (env.randWeather i) else config.weather }

/-- Outcome of one iteration of the generation loop: the item either
reaches a terminal state, or the iteration is stuck awaiting a promise
that never settles (leaving the item in its last observed state). -/
inductive ItemOutcome where
  | finished (g : GeneratedData)
  | stuck (g : GeneratedData)
deriving DecidableEq, Repr

/-- Embedding of one iteration of the `generateDataset` loop body
(`App.tsx`): create the item in state `generating`, call
`generateDroneView` (failure → `failed` with the error recorded), await
`resizeImage`, show the resized image while `detecting`, call
`detectObjectBBox` (failure → `failed`), convert the box and complete. -/
def runItem (config : GenerationConfig) (selectedAngles : List String)
    (env : Env) (i : ℕ) : ItemOutcome :=
  let metadata := resolveItemMetadata config selectedAngles env i
  let id := "img_" ++ toString (env.now i) ++ "_" ++ toString i
  let newItem : GeneratedData :=
    { id := id, imageUrl := "", bbox := none, status := .generating,
      error := none, metadata := metadata }
  match (env.effects i).synth with
  | .error e => .finished { newItem with status := .failed, error := some e }
  | .ok rawDroneImage =>
    match resizeImage (env.effects i).decodeOk (env.effects i).ctxOk
        (env.effects i).reencoded rawDroneImage config.width config.height with
    | .neverSettles => .stuck newItem
    | .resolved resizedImage =>
      match (env.effects i).detect with
      | .error e =>
          .finished { newItem with
            imageUrl := resizedImage
            status := .failed
            error := some e }
      | .ok box2d =>
          .finished { newItem with
            imageUrl := resizedImage
            status := .completed
            bbox := some (convertGeminiBoxToYolo box2d config.width config.height) }

/-- The item record an iteration leaves behind, whether it finished or
got stuck. -/
def runItemData (config : GenerationConfig) (selectedAngles : List String)
    (env : Env) (i : ℕ) : GeneratedData :=
  match runItem config selectedAngles env i with
  | .finished g => g
  | .stuck g => g

/-- The progress counter (`App.tsx`, `progress` state). -/
structure Progress where
  current : ℕ
  total : ℕ
deriving DecidableEq, Repr

/-- Observable result of a `generateDataset` run: the item collection,
the last progress value, the alert dialogs shown, and whether the run is
still marked as processing (stuck forever). -/
structure RunResult where
  items : List GeneratedData
  progress : Option Progress
  alerts : List String
  isProcessing : Bool
deriving DecidableEq, Repr

/-- The sequential item loop of `generateDataset`: items are appended in
order; a stuck iteration stalls the run (its `await` never returns), so
no later item is created and the progress counter is not advanced. -/
def runLoop (config : GenerationConfig) (selectedAngles : List String)
    (env : Env) : ℕ → ℕ → List GeneratedData → List GeneratedData × Progress × Bool
  | i, 0, acc => (acc, ⟨i, config.count⟩, false)
  | i, fuel + 1, acc =>
    match runItem config selectedAngles env i with
    | .finished g => runLoop config selectedAngles env (i + 1) fuel (acc ++ [g])
    | .stuck g => (acc ++ [g], ⟨i, config.count⟩, true)

/-- Embedding of `generateDataset` (`App.tsx`): precondition checks
(silent return on missing reference image or missing API key, alert on an
empty angle selection), then the sequential per-item loop. A falsy
`referenceImg` is `null` or the empty string. -/
def generateDataset (referenceImg : Option String) (apiKey : String)
    (selectedAngles : List String) (config : GenerationConfig) (env : Env) :
    RunResult :=
  if referenceImg.getD "" = "" ∨ apiKey = "" then
    { items := [], progress := none, alerts := [], isProcessing := false }
  else if selectedAngles.length = 0 then
    { items := [], progress := none,
      alerts := ["Please select at least one camera angle."], isProcessing := false }
  else
    let r := runLoop config selectedAngles env 0 config.count []
    { items := r.1, progress := some r.2.1, alerts := [], isProcessing := r.2.2 }

/-- The run of count 5 where only item index 2 fails synthesis
(scenario of C4). -/
def scenarioEnv : Env :=
  { randLighting := fun _ => 0
    randBackground := fun _ => 0
    randAltitude := fun _ => 0
    randWeather := fun _ => 0
    randAngle := fun _ => 0
    now := fun _ => 0
    effects := fun i =>
      if i = 2 then
        { synth := .error "Generation failed", decodeOk := true, ctxOk := true,
          reencoded := "resized", detect := .ok ⟨0, 0, 1, 1⟩ }
      else
        { synth := .ok "raw", decodeOk := true, ctxOk := true,
          reencoded := "resized", detect := .ok ⟨0, 0, 1, 1⟩ } }

/-- A count-5 configuration with concrete (non-"Random") axes. -/
def cfg5 : GenerationConfig :=
  { count := 5, width := 640, height := 640, lighting := "Sunset, golden hour",
    background := "Green grass field", altitude := "Low (10m)",
    angle := "Random", weather := "Clear, high visibility" }

/-- An environment whose detection step always fails (all other
effects succeed); used for concrete precondition runs. -/
def idleEnv : Env :=
  { randLighting := fun _ => 0
    randBackground := fun _ => 0
    randAltitude := fun _ => 0
    randWeather := fun _ => 0
    randAngle := fun _ => 0
    now := fun _ => 0
    effects := fun _ =>
      { synth := .ok "raw", decodeOk := true, ctxOk := true,
        reencoded := "resized", detect := .error "No text response for detection" } }

/-! ## handleDownloadZip (`App.tsx`) -/

/-- The archive produced by the export: the `data.yaml` manifest and the
per-item image and label files (filename, content). -/
structure ZipArchive where
  dataYaml : String
  images : List (String × String)
  labels : List (String × String)
deriving DecidableEq, Repr

/-- Embedding of `handleDownloadZip` (`App.tsx`): filter to completed
items carrying a box, return without producing an archive when none
qualify, otherwise build `data.yaml`, one `images/<id>.jpg` per item and
one `labels/<id>.txt` per item that has a box. -/
def handleDownloadZip (generatedItems : List GeneratedData) (classId : ℕ)
    (objectLabel : String) : Option ZipArchive :=
  let completedItems :=
    generatedItems.filter (fun i => i.status == Status.completed && i.bbox.isSome)
  if completedItems.length = 0 then none
  else
    some
      { dataYaml := "\ntrain: ../train/images\nval: ../valid/images\n\nnc: "
          ++ toString (classId + 1) ++ "\nnames: \x7b" ++ toString classId
          ++ ": '" ++ objectLabel ++ "'\x7d\n    "
        images := completedItems.map
          (fun item => (item.id ++ ".jpg", (item.imageUrl.splitOn ",").getD 1 ""))
        labels := completedItems.filterMap
          (fun item => item.bbox.map
            (fun b => (item.id ++ ".txt", formatYoloLine classId b))) }

/-- C1: `convertGeminiBoxToYolo` decides the scale solely by inspecting
`ymax`: for `ymax ≤ 1` the four fields are used unchanged, and for
`ymax > 1` all four are divided by 1000, before the width/height/center
formulas are applied. -/
theorem convertGeminiBoxToYolo_scale_decision (box : Box2D) (w h : ℚ) :
    (box.ymax ≤ 1 →
      convertGeminiBoxToYolo box w h =
        normalizedBoxSpec box.ymin box.xmin box.ymax box.xmax) ∧
    (1 < box.ymax →
      convertGeminiBoxToYolo box w h =
        normalizedBoxSpec (box.ymin / 1000) (box.xmin / 1000)
          (box.ymax / 1000) (box.xmax / 1000)) := by
  constructor
  · intro hle
    simp only [convertGeminiBoxToYolo, normalizedBoxSpec, if_neg (not_lt.mpr hle), div_one]
  · intro hgt
    simp only [convertGeminiBoxToYolo, normalizedBoxSpec, if_pos hgt]

/-- Witness for C1 at a concrete input on the `ymax ≤ 1` branch. -/
theorem convertGeminiBoxToYolo_scale_decision_witness :
    convertGeminiBoxToYolo ⟨0, 0, 1, 1⟩ 640 640 = normalizedBoxSpec 0 0 1 1 :=
  (convertGeminiBoxToYolo_scale_decision ⟨0, 0, 1, 1⟩ 640 640).1 (by norm_num)

/-- C2: `convertGeminiBoxToYolo` is total and every output field lies in
`[0, 1]`, for every input box (including malformed ones). -/
theorem convertGeminiBoxToYolo_clamped (box : Box2D) (w h : ℚ) :
    (0 ≤ (convertGeminiBoxToYolo box w h).x_center ∧
      (convertGeminiBoxToYolo box w h).x_center ≤ 1) ∧
    (0 ≤ (convertGeminiBoxToYolo box w h).y_center ∧
      (convertGeminiBoxToYolo box w h).y_center ≤ 1) ∧
    (0 ≤ (convertGeminiBoxToYolo box w h).width ∧
      (convertGeminiBoxToYolo box w h).width ≤ 1) ∧
    (0 ≤ (convertGeminiBoxToYolo box w h).height ∧
      (convertGeminiBoxToYolo box w h).height ≤ 1) := by
  simp only [convertGeminiBoxToYolo]
  refine ⟨⟨le_max_left _ _, ?_⟩, ⟨le_max_left _ _, ?_⟩,
    ⟨le_max_left _ _, ?_⟩, ⟨le_max_left _ _, ?_⟩⟩ <;>
    exact max_le (by norm_num) (min_le_left _ _)

/-- C10: per-field clamping does not give a geometrically in-bounds box —
at `ymin=0, xmin=500, ymax=1000, xmax=1500` every output field is in
`[0,1]` (with `x_center = 1` and `width = 1`) yet
`x_center + width/2 > 1`. -/
theorem convertGeminiBoxToYolo_out_of_bounds :
    (0 ≤ (convertGeminiBoxToYolo ⟨0, 500, 1000, 1500⟩ 640 640).x_center ∧
      (convertGeminiBoxToYolo ⟨0, 500, 1000, 1500⟩ 640 640).x_center ≤ 1) ∧
    (0 ≤ (convertGeminiBoxToYolo ⟨0, 500, 1000, 1500⟩ 640 640).y_center ∧
      (convertGeminiBoxToYolo ⟨0, 500, 1000, 1500⟩ 640 640).y_center ≤ 1) ∧
    (0 ≤ (convertGeminiBoxToYolo ⟨0, 500, 1000, 1500⟩ 640 640).width ∧
      (convertGeminiBoxToYolo ⟨0, 500, 1000, 1500⟩ 640 640).width ≤ 1) ∧
    (0 ≤ (convertGeminiBoxToYolo ⟨0, 500, 1000, 1500⟩ 640 640).height ∧
      (convertGeminiBoxToYolo ⟨0, 500, 1000, 1500⟩ 640 640).height ≤ 1) ∧
    (convertGeminiBoxToYolo ⟨0, 500, 1000, 1500⟩ 640 640).x_center = 1 ∧
    (convertGeminiBoxToYolo ⟨0, 500, 1000, 1500⟩ 640 640).width = 1 ∧
    1 < (convertGeminiBoxToYolo ⟨0, 500, 1000, 1500⟩ 640 640).x_center +
      (convertGeminiBoxToYolo ⟨0, 500, 1000, 1500⟩ 640 640).width / 2 := by
  norm_num [convertGeminiBoxToYolo]

theorem digitsBE_length (k m : ℕ) : (digitsBE k m).length = k := by
  induction k generalizing m with
  | zero => rfl
  | succ k ih => simp [digitsBE, ih]

theorem digitChar_isDigit (n : ℕ) : (digitChar n).isDigit = true := by
  have h : n % 10 < 10 := Nat.mod_lt _ (by norm_num)
  unfold digitChar
  generalize n % 10 = k at h ⊢
  interval_cases k <;> decide

theorem digitsBE_digits (k m : ℕ) : ∀ c ∈ digitsBE k m, c.isDigit = true := by
  induction k generalizing m with
  | zero => intro c hc; simp [digitsBE] at hc
  | succ k ih =>
    intro c hc
    simp only [digitsBE, List.mem_append, List.mem_singleton] at hc
    rcases hc with hc | hc
    · exact ih _ c hc
    · subst hc; exact digitChar_isDigit _

/-- If `0 ≤ q` then `toFixed6 q` is an integer part, a dot, and exactly
six decimal digits. -/
theorem toFixed6_shape (q : ℚ) (hq : 0 ≤ q) :
    ∃ ip fp : String, toFixed6 q = ip ++ "." ++ fp ∧ fp.length = 6 ∧
      ∀ c ∈ fp.data, c.isDigit = true := by
  refine ⟨toString ((⌊q * 1000000 + 1 / 2⌋).toNat / 1000000),
    String.mk (digitsBE 6 ((⌊q * 1000000 + 1 / 2⌋).toNat % 1000000)), ?_, ?_, ?_⟩
  · simp [toFixed6, toFixed6Nonneg, not_lt.mpr hq]
  · show (digitsBE 6 _).length = 6
    exact digitsBE_length 6 _
  · exact digitsBE_digits 6 _

/-- Evaluation rule for `toFixed6` at a non-negative value whose rounded
scaled numerator is the natural number `n`. -/
theorem toFixed6_eq (q : ℚ) (n : ℕ) (h1 : 0 ≤ q)
    (h2 : ⌊q * 1000000 + 1 / 2⌋ = (n : ℤ)) :
    toFixed6 q = toString (n / 1000000) ++ "." ++ String.mk (digitsBE 6 (n % 1000000)) := by
  rw [toFixed6, if_neg (not_lt.mpr h1), toFixed6Nonneg]
  rw [h2, Int.toNat_natCast]

/-- C3: `formatYoloLine` yields `"{classId} {x} {y} {w} {h}"` with the four
fields each printed with exactly six decimal places and nothing after the
last field; concretely,
`formatYoloLine 2 {0.5, 0.5, 0.25, 0.5} = "2 0.500000 0.500000 0.250000 0.500000"`. -/
theorem formatYoloLine_format :
    (∀ (classId : ℕ) (b : BoundingBox),
      0 ≤ b.x_center → 0 ≤ b.y_center → 0 ≤ b.width → 0 ≤ b.height →
      ∃ f1 f2 f3 f4 : String,
        formatYoloLine classId b =
          toString classId ++ " " ++ f1 ++ " " ++ f2 ++ " " ++ f3 ++ " " ++ f4 ∧
        ∀ f ∈ [f1, f2, f3, f4], ∃ ip fp : String,
          f = ip ++ "." ++ fp ∧ fp.length = 6 ∧ ∀ c ∈ fp.data, c.isDigit = true) ∧
    formatYoloLine 2 ⟨1/2, 1/2, 1/4, 1/2⟩ =
      "2 0.500000 0.500000 0.250000 0.500000" := by
  constructor
  · intro classId b hx hy hw hh
    refine ⟨toFixed6 b.x_center, toFixed6 b.y_center, toFixed6 b.width,
      toFixed6 b.height, rfl, ?_⟩
    intro f hf
    simp only [List.mem_cons, List.not_mem_nil, or_false] at hf
    rcases hf with hf | hf | hf | hf <;> subst hf
    · exact toFixed6_shape _ hx
    · exact toFixed6_shape _ hy
    · exact toFixed6_shape _ hw
    · exact toFixed6_shape _ hh
  · have e5 : toFixed6 (1 / 2 : ℚ) = "0.500000" := by
      rw [toFixed6_eq (1 / 2 : ℚ) 500000 (by norm_num) (by norm_num [Int.floor_eq_iff])]
      decide
    have e25 : toFixed6 (1 / 4 : ℚ) = "0.250000" := by
      rw [toFixed6_eq (1 / 4 : ℚ) 250000 (by norm_num) (by norm_num [Int.floor_eq_iff])]
      decide
    simp only [formatYoloLine, e5, e25]
    decide

/-- Witness for C3 instantiating the general format statement. -/
theorem formatYoloLine_format_witness :
    ∃ f1 f2 f3 f4 : String,
      formatYoloLine 2 ⟨1/2, 1/2, 1/4, 1/2⟩ =
        toString 2 ++ " " ++ f1 ++ " " ++ f2 ++ " " ++ f3 ++ " " ++ f4 ∧
      ∀ f ∈ [f1, f2, f3, f4], ∃ ip fp : String,
        f = ip ++ "." ++ fp ∧ fp.length = 6 ∧ ∀ c ∈ fp.data, c.isDigit = true :=
  formatYoloLine_format.1 2 ⟨1/2, 1/2, 1/4, 1/2⟩
    (by norm_num) (by norm_num) (by norm_num) (by norm_num)

set_option maxHeartbeats 1000000 in
/-- C7: for positive pixel dimensions, `getGeminiAspectRatio` returns the
tag whose reference value has minimal absolute difference to `width/height`,
ties broken by enumeration order (first minimal match wins); in particular
`(640,640) ↦ "1:1"`, `(640,480) ↦ "4:3"`, `(1080,1920) ↦ "9:16"`. -/
theorem getGeminiAspectRatio_nearest :
    (∀ w h : ℚ, 0 < w → 0 < h → ∃ i : Fin 5,
      getGeminiAspectRatio w h = ratioKey i ∧
      (∀ j : Fin 5, |ratioVal i - w / h| ≤ |ratioVal j - w / h|) ∧
      (∀ j : Fin 5, j < i → |ratioVal i - w / h| < |ratioVal j - w / h|)) ∧
    getGeminiAspectRatio 640 640 = "1:1" ∧
    getGeminiAspectRatio 640 480 = "4:3" ∧
    getGeminiAspectRatio 1080 1920 = "9:16" := by
  refine ⟨?_, ?_, ?_, ?_⟩
  · intro w h hw hh
    simp only [getGeminiAspectRatio, List.foldl_cons, List.foldl_nil]
    split_ifs <;> dsimp only at * <;>
      first
      | exact ⟨⟨0, by norm_num⟩, rfl,
          by intro j; fin_cases j <;> simp only [ratioVal] <;> linarith,
          by intro j hj; fin_cases j <;>
            first
            | exact absurd hj (by decide)
            | (simp only [ratioVal]; linarith)⟩
      | exact ⟨⟨1, by norm_num⟩, rfl,
          by intro j; fin_cases j <;> simp only [ratioVal] <;> linarith,
          by intro j hj; fin_cases j <;>
            first
            | exact absurd hj (by decide)
            | (simp only [ratioVal]; linarith)⟩
      | exact ⟨⟨2, by norm_num⟩, rfl,
          by intro j; fin_cases j <;> simp only [ratioVal] <;> linarith,
          by intro j hj; fin_cases j <;>
            first
            | exact absurd hj (by decide)
            | (simp only [ratioVal]; linarith)⟩
      | exact ⟨⟨3, by norm_num⟩, rfl,
          by intro j; fin_cases j <;> simp only [ratioVal] <;> linarith,
          by intro j hj; fin_cases j <;>
            first
            | exact absurd hj (by decide)
            | (simp only [ratioVal]; linarith)⟩
      | exact ⟨⟨4, by norm_num⟩, rfl,
          by intro j; fin_cases j <;> simp only [ratioVal] <;> linarith,
          by intro j hj; fin_cases j <;>
            first
            | exact absurd hj (by decide)
            | (simp only [ratioVal]; linarith)⟩
  · have hq : (640 : ℚ) / 640 = 1 := by norm_num
    simp only [getGeminiAspectRatio, List.foldl_cons, List.foldl_nil, hq]
    norm_num [abs_of_nonpos, abs_of_nonneg]
  · have hq : (640 : ℚ) / 480 = 4 / 3 := by norm_num
    simp only [getGeminiAspectRatio, List.foldl_cons, List.foldl_nil, hq]
    norm_num [abs_of_nonpos, abs_of_nonneg]
  · have hq : (1080 : ℚ) / 1920 = 9 / 16 := by norm_num
    simp only [getGeminiAspectRatio, List.foldl_cons, List.foldl_nil, hq]
    norm_num [abs_of_nonpos, abs_of_nonneg]

/-- Witness for C7 instantiating the nearest-ratio statement at (640, 640). -/
theorem getGeminiAspectRatio_nearest_witness :
    ∃ i : Fin 5,
      getGeminiAspectRatio 640 640 = ratioKey i ∧
      (∀ j : Fin 5, |ratioVal i - 640 / 640| ≤ |ratioVal j - 640 / 640|) ∧
      (∀ j : Fin 5, j < i → |ratioVal i - 640 / 640| < |ratioVal j - 640 / 640|) :=
  getGeminiAspectRatio_nearest.1 640 640 (by norm_num) (by norm_num)

/-- C5 (code behaviour at the failing inputs): when decoding fails,
`resizeImage` never settles — no `DecodeFailed` (or any) error reaches the
caller; and when the drawing context is missing, it resolves with the
original, unresized bytes unchanged. Both contradict the claim that a
distinguishable decode error is surfaced. -/
theorem resizeImage_silent_fallback :
    (∀ (reencoded base64Str : String) (w h : ℚ),
      resizeImage false true reencoded base64Str w h = .neverSettles) ∧
    (∀ (reencoded base64Str : String) (w h : ℚ),
      resizeImage true false reencoded base64Str w h = .resolved base64Str) :=
  ⟨fun _ _ _ _ => rfl, fun _ _ _ _ => rfl⟩

theorem runItemData_metadata (config : GenerationConfig) (angles : List String)
    (env : Env) (i : ℕ) :
    (runItemData config angles env i).metadata = resolveItemMetadata config angles env i := by
  cases hs : (env.effects i).synth <;>
    cases hc : (env.effects i).decodeOk <;>
      cases hctx : (env.effects i).ctxOk <;>
        cases hd : (env.effects i).detect <;>
          simp [runItemData, runItem, resizeImage, hs, hc, hctx, hd]

theorem runItem_finished_of_decodeOk (config : GenerationConfig) (angles : List String)
    (env : Env) (i : ℕ) (h : (env.effects i).decodeOk = true) :
    runItem config angles env i = .finished (runItemData config angles env i) ∧
    ((runItemData config angles env i).status = .completed ∨
      (runItemData config angles env i).status = .failed) := by
  unfold runItemData runItem resizeImage
  rw [h]
  cases hs : (env.effects i).synth with
  | error e => exact ⟨rfl, Or.inr rfl⟩
  | ok raw =>
    cases hc : (env.effects i).ctxOk with
    | true =>
      cases hd : (env.effects i).detect with
      | error e => exact ⟨rfl, Or.inr rfl⟩
      | ok b => exact ⟨rfl, Or.inl rfl⟩
    | false =>
      cases hd : (env.effects i).detect with
      | error e => exact ⟨rfl, Or.inr rfl⟩
      | ok b => exact ⟨rfl, Or.inl rfl⟩

theorem runLoop_eq (config : GenerationConfig) (angles : List String) (env : Env)
    (hdec : ∀ k, (env.effects k).decodeOk = true) :
    ∀ (fuel i : ℕ) (acc : List GeneratedData),
      runLoop config angles env i fuel acc =
        (acc ++ (List.range fuel).map (fun k => runItemData config angles env (i + k)),
          ⟨i + fuel, config.count⟩, false) := by
  intro fuel
  induction fuel with
  | zero => intro i acc; simp [runLoop]
  | succ fuel ih =>
    intro i acc
    rw [runLoop, (runItem_finished_of_decodeOk config angles env i (hdec i)).1]
    dsimp only
    rw [ih (i + 1) (acc ++ [runItemData config angles env i])]
    have hmap : (List.range (fuel + 1)).map
          (fun k => runItemData config angles env (i + k)) =
        runItemData config angles env i ::
          (List.range fuel).map (fun k => runItemData config angles env (i + 1 + k)) := by
      rw [List.range_succ_eq_map, List.map_cons, List.map_map]
      refine congrArg₂ _ (by rw [Nat.add_zero]) ?_
      have hfe : ((fun k => runItemData config angles env (i + k)) ∘ Nat.succ) =
          fun k => runItemData config angles env (i + 1 + k) := by
        funext k
        simp only [Function.comp]
        congr 1
        omega
      rw [hfe]
    rw [hmap]
    refine congrArg₂ _ ?_ (by rw [Prod.mk.injEq]; exact ⟨by rw [Progress.mk.injEq]; omega, rfl⟩)
    simp

/-- C4: when the preconditions hold and every generated image decodes, a
run of count `n` yields exactly `n` items, all terminal, with progress
`{n, n}` — one item's synthesis or detection failure never aborts the
loop; concretely, count 5 with synthesis failing only at index 2 gives 5
items, item 2 `failed` with a non-empty error, the rest `completed`, and
progress `{5, 5}`. -/
theorem generateDataset_items_terminal :
    (∀ (refImg apiKey : String) (angles : List String) (config : GenerationConfig)
        (env : Env),
      refImg ≠ "" → apiKey ≠ "" → angles ≠ [] →
      (∀ k, (env.effects k).decodeOk = true) →
      (generateDataset (some refImg) apiKey angles config env).items.length =
          config.count ∧
      (∀ g ∈ (generateDataset (some refImg) apiKey angles config env).items,
        g.status = .completed ∨ g.status = .failed) ∧
      (generateDataset (some refImg) apiKey angles config env).progress =
        some ⟨config.count, config.count⟩) ∧
    ((generateDataset (some "ref") "key" ["Standard (45°)"] cfg5 scenarioEnv).items.length = 5 ∧
      ((generateDataset (some "ref") "key" ["Standard (45°)"] cfg5 scenarioEnv).items.get? 2).map
          GeneratedData.status = some .failed ∧
      ((generateDataset (some "ref") "key" ["Standard (45°)"] cfg5 scenarioEnv).items.get? 2).map
          GeneratedData.error = some (some "Generation failed") ∧
      ((generateDataset (some "ref") "key" ["Standard (45°)"] cfg5 scenarioEnv).items.get? 0).map
          GeneratedData.status = some .completed ∧
      ((generateDataset (some "ref") "key" ["Standard (45°)"] cfg5 scenarioEnv).items.get? 1).map
          GeneratedData.status = some .completed ∧
      ((generateDataset (some "ref") "key" ["Standard (45°)"] cfg5 scenarioEnv).items.get? 3).map
          GeneratedData.status = some .completed ∧
      ((generateDataset (some "ref") "key" ["Standard (45°)"] cfg5 scenarioEnv).items.get? 4).map
          GeneratedData.status = some .completed ∧
      (generateDataset (some "ref") "key" ["Standard (45°)"] cfg5 scenarioEnv).progress =
        some ⟨5, 5⟩) := by
  constructor
  · intro refImg apiKey angles config env h1 h2 h3 hdec
    have hpre : ¬((some refImg).getD "" = "" ∨ apiKey = "") := by
      simp [Option.getD, h1, h2]
    have hang : ¬(angles.length = 0) := by
      simpa [List.length_eq_zero] using h3
    unfold generateDataset
    rw [if_neg hpre, if_neg hang]
    rw [runLoop_eq config angles env hdec config.count 0 []]
    refine ⟨by simp, ?_, by simp⟩
    intro g hg
    simp only [List.nil_append, List.mem_map, List.mem_range] at hg
    obtain ⟨k, _, hk⟩ := hg
    rw [← hk]
    simpa using (runItem_finished_of_decodeOk config angles env (0 + k) (hdec _)).2
  · exact ⟨rfl, rfl, rfl, rfl, rfl, rfl, rfl, rfl⟩

/-- Witness for C4 instantiating the general statement at the scenario run. -/
theorem generateDataset_items_terminal_witness :
    (generateDataset (some "ref") "key" ["Standard (45°)"] cfg5 scenarioEnv).items.length =
      cfg5.count :=
  (generateDataset_items_terminal.1 "ref" "key" ["Standard (45°)"] cfg5 scenarioEnv
    (by decide) (by decide) (by decide)
    (fun k => by
      simp only [scenarioEnv]
      split <;> rfl)).1

/-- C6 counterexample: with the reference image absent, `generateDataset`
aborts before creating any item but surfaces nothing — no alert, no
progress update, no error value of any kind reaches the caller (the
result is identical to a run that never started), contradicting the
claim that every precondition violation is surfaced to the caller
synchronously. -/
theorem generateDataset_missing_reference_silent :
    generateDataset none "key" ["Standard (45°)"] cfg5 idleEnv =
      { items := [], progress := none, alerts := [], isProcessing := false } := rfl

/-- C6 (amended): any precondition violation aborts before any item is
created; the empty-angle violation is surfaced via an alert dialog, while
a missing reference image or missing credential cause a silent
synchronous return with no signal to the caller. -/
theorem generateDataset_precondition_abort :
    (∀ (refImg : Option String) (apiKey : String) (angles : List String)
        (config : GenerationConfig) (env : Env),
      refImg.getD "" = "" ∨ apiKey = "" →
      generateDataset refImg apiKey angles config env =
        { items := [], progress := none, alerts := [], isProcessing := false }) ∧
    (∀ (refImg apiKey : String) (config : GenerationConfig) (env : Env),
      refImg ≠ "" → apiKey ≠ "" →
      generateDataset (some refImg) apiKey [] config env =
        { items := [], progress := none,
          alerts := ["Please select at least one camera angle."],
          isProcessing := false }) := by
  constructor
  · intro refImg apiKey angles config env h
    unfold generateDataset
    rw [if_pos h]
  · intro refImg apiKey config env h1 h2
    unfold generateDataset
    rw [if_neg (by simp [Option.getD, h1, h2])]
    rfl

/-- Witness for C6's amended statement on the missing-credential branch. -/
theorem generateDataset_precondition_abort_witness :
    generateDataset (some "ref") "" ["Standard (45°)"] cfg5 idleEnv =
      { items := [], progress := none, alerts := [], isProcessing := false } :=
  generateDataset_precondition_abort.1 (some "ref") "" ["Standard (45°)"] cfg5 idleEnv
    (Or.inr rfl)

theorem sample_mem (arr : List String) (r : ℕ) (h : arr ≠ []) : sample arr r ∈ arr := by
  unfold sample
  have hlen : 0 < arr.length := List.length_pos.mpr h
  have hidx : r % arr.length < arr.length := Nat.mod_lt _ hlen
  rw [List.getD_eq_get?, List.get?_eq_get hidx]
  exact List.get_mem _ _ _

theorem runLoop_mem (config : GenerationConfig) (angles : List String) (env : Env) :
    ∀ (fuel i : ℕ) (acc : List GeneratedData),
      ∀ g ∈ (runLoop config angles env i fuel acc).1,
        g ∈ acc ∨ ∃ j, g.metadata = resolveItemMetadata config angles env j := by
  intro fuel
  induction fuel with
  | zero =>
    intro i acc g hg
    exact Or.inl hg
  | succ fuel ih =>
    intro i acc g hg
    rw [runLoop] at hg
    rcases hpay : runItem config angles env i with gi | gi <;> rw [hpay] at hg
    · rcases ih (i + 1) (acc ++ [gi]) g hg with hacc | hj
      · rcases List.mem_append.mp hacc with h | h
        · exact Or.inl h
        · refine Or.inr ⟨i, ?_⟩
          rw [List.mem_singleton.mp h]
          have : runItemData config angles env i = gi := by
            unfold runItemData; rw [hpay]
          rw [← this]
          exact runItemData_metadata config angles env i
      · exact Or.inr hj
    · rcases List.mem_append.mp hg with h | h
      · exact Or.inl h
      · refine Or.inr ⟨i, ?_⟩
        rw [List.mem_singleton.mp h]
        have : runItemData config angles env i = gi := by
          unfold runItemData; rw [hpay]
        rw [← this]
        exact runItemData_metadata config angles env i

/-- C9: in any run, every created item's resolved camera angle is drawn
from the caller-supplied angle set: it is a member of that set, and (the
set never containing the sentinel) is never `"Random"` — for every
environment, i.e. regardless of the values the random sampler draws. -/
theorem generateDataset_angle_in_set :
    ∀ (refImg : Option String) (apiKey : String) (angles : List String)
      (config : GenerationConfig) (env : Env),
      angles ≠ [] → "Random" ∉ angles →
      ∀ g ∈ (generateDataset refImg apiKey angles config env).items,
        g.metadata.angle ∈ angles ∧ g.metadata.angle ≠ "Random" := by
  intro refImg apiKey angles config env hne hnr g hg
  unfold generateDataset at hg
  split at hg
  · simp at hg
  · split at hg
    · simp at hg
    · simp only at hg
      rcases runLoop_mem config angles env config.count 0 [] g hg with h | ⟨j, hj⟩
      · simp at h
      · have hangle : g.metadata.angle = sample angles (env.randAngle j) := by
          rw [hj]; rfl
        rw [hangle]
        refine ⟨sample_mem angles _ hne, ?_⟩
        intro hr
        exact hnr (hr ▸ sample_mem angles _ hne)

/-- Witness for C9: the first item of a concrete single-angle run. -/
theorem generateDataset_angle_in_set_witness :
    (runItemData cfg5 ["Standard (45°)"] idleEnv 0).metadata.angle ∈
        (["Standard (45°)"] : List String) ∧
      (runItemData cfg5 ["Standard (45°)"] idleEnv 0).metadata.angle ≠ "Random" :=
  generateDataset_angle_in_set (some "ref") "key" ["Standard (45°)"] cfg5 idleEnv
    (by decide) (by decide) (runItemData cfg5 ["Standard (45°)"] idleEnv 0)
    (by decide)

theorem labels_map_of_all_some (classId : ℕ) :
    ∀ l : List GeneratedData, (∀ g ∈ l, g.bbox.isSome = true) →
      (l.filterMap (fun item => item.bbox.map
          (fun b => (item.id ++ ".txt", formatYoloLine classId b)))).map Prod.fst =
        l.map (fun i => i.id ++ ".txt") := by
  intro l
  induction l with
  | nil => intro _; rfl
  | cons x xs ih =>
    intro hall
    have hx : x.bbox.isSome = true := hall x (List.mem_cons_self _ _)
    rcases Option.isSome_iff_exists.mp hx with ⟨b, hb⟩
    simp [List.filterMap_cons, hb, ih (fun g hg => hall g (List.mem_cons_of_mem _ hg))]

/-- C8: the export includes exactly the items that are `completed` and
carry a box — the image and label filenames are in one-to-one
correspondence with that filtered list — and when no item qualifies it is
a no-op: no archive is produced. -/
theorem handleDownloadZip_completed_only (items : List GeneratedData) (classId : ℕ)
    (objectLabel : String) :
    (items.filter (fun i => i.status == Status.completed && i.bbox.isSome) = [] →
      handleDownloadZip items classId objectLabel = none) ∧
    (items.filter (fun i => i.status == Status.completed && i.bbox.isSome) ≠ [] →
      ∃ a, handleDownloadZip items classId objectLabel = some a ∧
        a.images.map Prod.fst =
          (items.filter (fun i => i.status == Status.completed && i.bbox.isSome)).map
            (fun i => i.id ++ ".jpg") ∧
        a.labels.map Prod.fst =
          (items.filter (fun i => i.status == Status.completed && i.bbox.isSome)).map
            (fun i => i.id ++ ".txt")) := by
  constructor
  · intro h
    simp only [handleDownloadZip, h]
    rfl
  · intro h
    have hlen : ¬(items.filter
        (fun i => i.status == Status.completed && i.bbox.isSome)).length = 0 := by
      simpa [List.length_eq_zero] using h
    simp only [handleDownloadZip, if_neg hlen]
    refine ⟨_, rfl, ?_, ?_⟩
    · rw [List.map_map]
      rfl
    · refine labels_map_of_all_some classId _ ?_
      intro g hg
      have := (List.mem_filter.mp hg).2
      exact (Bool.and_eq_true_iff.mp this).2

/-- Witness for C8 at the empty collection: no archive is produced. -/
theorem handleDownloadZip_completed_only_witness :
    handleDownloadZip [] 0 "car" = none :=
  (handleDownloadZip_completed_only [] 0 "car").1 rfl

